import Mathlib

/-!
Verification of the retrieval/matching engine of `backend/main.py`
(a FastAPI chatbot that answers questions from a JSON knowledge base).

The Python code is shallowly embedded:
* Python `str` values become Lean `String`; per-character operations work on
  `String.data : List Char`.
* Python floats (scores, mtimes) become `ℚ`; every constant involved
  (80.0, 4.0, 16.0, 5.0) is exactly representable, and no claim depends on
  floating-point rounding.
* Values produced by `json.load` (`dict` / `list` / `str` / number / bool /
  `None`) become the inductive type `Json` below (JSON numbers are modelled
  as integers; no claim involves fractional literals in the data file).
* The two `rapidfuzz` similarity measures (`fuzz.token_set_ratio`,
  `fuzz.partial_ratio`) are third-party library calls; they are treated as
  opaque parameters of type `Fuzz := String → String → ℚ`.  Every theorem
  holds for an arbitrary pair of such functions.
* The module-level mutable globals `KB`, `UI`, `MTIME` become the record
  `CacheState`, and `load_json` / the `/chat` handler become explicit
  state-passing functions.  A raised Python exception is modelled by an
  `Option Err` / `Except Err` component of the result.
-/

namespace Chatbot

/-! ### Python string primitives -/

/-- Characters removed by Python `str.strip()` (ASCII whitespace:
space, tab, LF, CR, vertical tab, form feed). -/
def isPySpace (c : Char) : Bool :=
  c.toNat = 32 ∨ c.toNat = 9 ∨ c.toNat = 10 ∨ c.toNat = 13 ∨ c.toNat = 11 ∨ c.toNat = 12

/-- Python `str.strip()` on the character list: drop leading and trailing
whitespace. -/
def stripData (l : List Char) : List Char :=
  ((l.dropWhile isPySpace).reverse.dropWhile isPySpace).reverse

/-- Python `str.strip()`. -/
def pyStrip (s : String) : String := ⟨stripData s.data⟩

/-- Python `str.lower()`, character-wise (`Char.toLower` handles the basic
Latin letters; all scoring-relevant lowering in the code is of this kind). -/
def pyLower (s : String) : String := ⟨s.data.map Char.toLower⟩

/-- Python substring test `needle in hay` on character lists. -/
def isSubstr (needle : List Char) : List Char → Bool
  | [] => needle.isEmpty
  | c :: rest => needle.isPrefixOf (c :: rest) || isSubstr needle rest

/-! ### Python/JSON values

`Json` models the values `json.load` can produce (and hence the dynamic
values flowing through `norm_list`, the loader and the entry dictionaries).
An `obj` models an already-built Python `dict`, so keys are looked up by
first occurrence. -/

inductive Json where
  | null : Json
  | bool (b : Bool) : Json
  | int (n : Int) : Json
  | str (s : String) : Json
  | arr (elems : List Json) : Json
  | obj (fields : List (String × Json)) : Json

/-- Python truthiness of a JSON-originated value (`if not x: ...`). -/
def Json.truthy : Json → Bool
  | .null => false
  | .bool b => b
  | .int n => n ≠ 0
  | .str s => s ≠ ""
  | .arr xs => ¬ xs.isEmpty
  | .obj kvs => ¬ kvs.isEmpty

mutual

/-- Python `repr` of a JSON-originated value (used by `str` on containers).
Its exact form is irrelevant to every claim; it only has to be a fixed
total function. -/
def pyRepr : Json → String
  | .null => "None"
  | .bool true => "True"
  | .bool false => "False"
  | .int n => toString n
  | .str s => "\x27" ++ s ++ "\x27"
  | .arr xs => "[" ++ pyReprArr xs ++ "]"
  | .obj kvs => "\x7b" ++ pyReprObj kvs ++ "\x7d"

/-- Comma-separated `repr` of array elements. -/
def pyReprArr : List Json → String
  | [] => ""
  | [x] => pyRepr x
  | x :: xs => pyRepr x ++ ", " ++ pyReprArr xs

/-- Comma-separated `repr` of object fields. -/
def pyReprObj : List (String × Json) → String
  | [] => ""
  | [kv] => "\x27" ++ kv.1 ++ "\x27: " ++ pyRepr kv.2
  | kv :: kvs => "\x27" ++ kv.1 ++ "\x27: " ++ pyRepr kv.2 ++ ", " ++ pyReprObj kvs

end

/-- Python `str(x)` of a JSON-originated value. -/
def pyStr : Json → String
  | .null => "None"
  | .bool true => "True"
  | .bool false => "False"
  | .int n => toString n
  | .str s => s
  | .arr xs => pyRepr (.arr xs)
  | .obj kvs => pyRepr (.obj kvs)

/-! ### `norm_list` (main.py lines 38-53) -/

/-- One iteration of the list branch of `norm_list`: `None` entries are
skipped, every other scalar is stringified, stripped, lowercased and kept
when non-blank. -/
def normElem (v : Json) : Option String :=
  match v with
  | Json.null => none
  | v =>
    let s := pyLower (pyStrip (pyStr v))
    if s = "" then none else some s

/-- `norm_list` from main.py: falsy input yields `[]`; a string yields the
one-element list of its stripped, lowercased form; a list is filtered
element-wise by `normElem`; any other scalar is stringified, stripped,
lowercased and wrapped singly when non-blank. -/
def norm_list (x : Json) : List String :=
  if x.truthy = false then []
  else
    match x with
    | Json.str s => [pyLower (pyStrip s)]
    | Json.arr xs => xs.filterMap normElem
    | x =>
      let s := pyLower (pyStrip (pyStr x))
      if s = "" then [] else [s]

/-! ### Keyword bank (main.py lines 57-72) -/

/-- The static topic → trigger-substring bank `KEYBANK`, in source order
(including the duplicated `"corab"` entry of the source). -/
def KEYBANK : List (String × List String) :=
  [("auditory",
    ["qulaq", "qulağ", "qulaqlar", "səs", "ses", "səs-küy", "ses-kuy",
     "tozsoran", "fen", "ventilyasiya", "ventilyator", "maşın səsi", "masin sesi",
     "qışqır", "bagir", "sirena", "metro", "toy"]),
   ("smell", ["qoxu", "iy", "ətir", "parfum", "təmizlik", "xlor", "yemək qoxusu"]),
   ("touch", ["toxun", "paltar", "etiket", "corab", "corab", "düymə", "daraq", "saç"]),
   ("sleep", ["yuxu", "yatmır", "oyanır", "gecə", "rejim"]),
   ("toilet", ["tualet", "pampers", "bez", "unitaz", "karşok", "sidik", "nəcis"]),
   ("food", ["yemək", "qida", "dad", "tekstura", "seçir", "yemir", "qlüten", "kazein"]),
   ("meltdown", ["meltdown", "isterika", "qışqırır", "bağırır", "aqressiya", "vurur", "dişləyir"]),
   ("hygiene", ["diş", "fırça", "pasta", "duş", "çimmək", "dırnaq"]),
   ("school", ["məktəb", "bağça", "müəllim", "dərs", "inklyuziv"]),
   ("communication", ["danışmır", "ünsiyyət", "jest", "pecs", "exolaliya", "təkrar edir"])]

/-! ### Chunker `split_into_chunks` (main.py lines 75-95) -/

/-- Python `text.replace("\r\n", "\n")`: left-to-right, non-overlapping. -/
def replCRLF : List Char → List Char
  | '\r' :: '\n' :: rest => '\n' :: replCRLF rest
  | c :: rest => c :: replCRLF rest
  | [] => []

/-- The normalisation step of the chunker: replace CRLF by LF, then strip. -/
def normalizeText (text : String) : String := pyStrip ⟨replCRLF text.data⟩

/-- Model of `re.split(r"\n\x7b2,\x7d", t)`: split at each maximal run of
two or more consecutive newline characters. -/
def splitNL2 : List Char → List (List Char)
  | [] => [[]]
  | [c] => [[c]]
  | c :: d :: rest =>
    if c = '\n' ∧ d = '\n' then
      [] :: splitNL2 ((d :: rest).dropWhile (fun e => e == '\n'))
    else
      match splitNL2 (d :: rest) with
      | [] => [[c]]
      | p :: ps => (c :: p) :: ps
termination_by l => l.length
decreasing_by
  · have := (List.dropWhile_suffix (l := d :: rest) (fun e => e == '\n')).length_le
    simp at this ⊢
    omega
  · simp

/-- `split_into_chunks` from main.py: empty text yields `[]`; otherwise
normalise, split on `\n` runs of length at least two, strip each part, keep
parts of at least 80 characters, and fall back to the whole normalised text
when nothing survives the filter. -/
def split_into_chunks (text : String) : List String :=
  if text = "" then []
  else
    let t := normalizeText text
    let parts := (splitNL2 t.data).map stripData
    let chunks := parts.filter (fun p => 80 ≤ p.length)
    if chunks.isEmpty then [t] else chunks.map (fun p => String.mk p)

/-! ### Keyword extractor `extract_keywords` (main.py lines 98-124) -/

/-- The character class of the title-token pattern
`[a-zəğıöşüç0-9]` (applied to lowercased text). -/
def azClass (c : Char) : Bool :=
  (97 ≤ c.toNat ∧ c.toNat ≤ 122) ∨ (48 ≤ c.toNat ∧ c.toNat ≤ 57) ∨
    c = 'ə' ∨ c = 'ğ' ∨ c = 'ı' ∨ c = 'ö' ∨ c = 'ş' ∨ c = 'ü' ∨ c = 'ç'

/-- Maximal runs of characters satisfying `p` (the matches of a greedy
character-class regex). -/
def runsBy (p : Char → Bool) : List Char → List (List Char)
  | [] => []
  | c :: rest =>
    if p c then (c :: rest.takeWhile p) :: runsBy p (rest.dropWhile p)
    else runsBy p rest
termination_by l => l.length
decreasing_by
  · have := (List.dropWhile_suffix (l := rest) p).length_le
    simp at this ⊢
    omega
  · simp

/-- Core of `extract_keywords` on the already-lowercased title and passage:
title tokens of length at least 3, bank triggers occurring in title or
passage, the composite-phrase rule, deduplicated and sorted. -/
def extract_keywords_core (title_l text_l : String) : List String :=
  let titleTokens := (runsBy azClass title_l.data).filterMap
    (fun r => if 3 ≤ r.length then some (String.mk r) else none)
  let bankHits := (KEYBANK.map Prod.snd).flatten.filter
    (fun v => isSubstr v.data title_l.data || isSubstr v.data text_l.data)
  let phrases :=
    if isSubstr "qulaq".data text_l.data &&
        (isSubstr "ağlay".data text_l.data || isSubstr "aglay".data text_l.data)
    then ["qulaqlarını tutub ağlayır", "qulaqlarini tutub aglayir"]
    else []
  ((titleTokens ++ bankHits ++ phrases).dedup).mergeSort (fun a b => decide (a ≤ b))

/-- Python `x or d`. -/
def pyOr (x d : Json) : Json := if x.truthy then x else d

/-- Python `.lower()` on a dynamic value: succeeds only on strings
(`AttributeError` otherwise). -/
def pyLowerDyn : Json → Except Unit String
  | Json.str s => Except.ok (pyLower s)
  | _ => Except.error ()

/-- `extract_keywords(title, text)` from main.py, with the dynamic
`(title or "").lower()` / `(text or "").lower()` steps made explicit: a
truthy non-string argument raises `AttributeError`. -/
def extract_keywords (title text : Json) : Except Unit (List String) := do
  let title_l ← pyLowerDyn (pyOr title (Json.str ""))
  let text_l ← pyLowerDyn (pyOr text (Json.str ""))
  pure (extract_keywords_core title_l text_l)

/-! ### Entries and scoring (main.py lines 127-175) -/

/-- One knowledge-base entry, i.e. one of the dictionaries `load_json`
appends to `KB`.  All keys the code reads (`id`, `title`, `topic`,
`keywords`, `text`, `source`) are always present in those dictionaries, so
they are structure fields; `parent_id` and `image` exist only on
problem-derived entries and are `Option`al.  `keywords` is always a list
of strings (the output of `norm_list` or `extract_keywords`). -/
structure Item where
  id : Json
  parent_id : Option Json
  title : Json
  topic : Json
  keywords : List String
  text : Json
  source : String
  image : Option Json

/-- The two rapidfuzz similarity measures are opaque: any function from
(user text, query text) to a rational score. -/
abbrev Fuzz := String → String → ℚ

/-- `norm_list(item.get("keywords"))` as evaluated on a stored entry, whose
`keywords` field is a Python list of strings. -/
def item_keywords (item : Item) : List String :=
  norm_list (Json.arr (item.keywords.map Json.str))

/-- `build_query_text` from main.py: lowercased title, topic, joined
keywords and the first 800 characters of the lowercased answer text,
joined by single spaces and stripped. -/
def build_query_text (item : Item) : String :=
  let title := pyLower (pyStr item.title)
  let topic := pyLower (pyStr item.topic)
  let keywords := " ".intercalate (item_keywords item)
  let text : String := ⟨(pyLower (pyStr item.text)).data.take 800⟩
  pyStrip (title ++ " " ++ topic ++ " " ++ keywords ++ " " ++ text)

/-- `keyword_overlap` from main.py: the number of non-empty keyword tags
occurring as substrings of the user text. -/
def keyword_overlap (user_text : String) (keywords : List String) : ℕ :=
  (keywords.filter (fun kw => kw != "" && isSubstr kw.data user_text.data)).length

/-- The per-entry score computed inside the loop of `top2_match`: the
maximum of the two fuzz ratios, plus the saturating overlap bonus, minus
the flat penalty exactly when the overlap is zero (applied after the
bonus). -/
def entry_score (fuzzTS fuzzPR : Fuzz) (user_text : String) (item : Item) : ℚ :=
  let overlap := keyword_overlap user_text (item_keywords item)
  let q := build_query_text item
  let score := max (fuzzTS user_text q) (fuzzPR user_text q)
  let score := score + min ((overlap : ℚ) * 4) 16
  if overlap = 0 then score - 5 else score

/-- `top2_match` from main.py: score every entry with a non-empty composite
query text (entries with an empty one are skipped), sort descending by
score (stably, as Python's `sort` does), and return the top two
`(score, entry)` pairs, with `(0.0, None)` filling missing slots. -/
def top2_match (fuzzTS fuzzPR : Fuzz) (kb : List Item) (user_text : String) :
    (ℚ × Option Item) × (ℚ × Option Item) :=
  let scored := kb.filterMap (fun item =>
    if build_query_text item = "" then none
    else some (entry_score fuzzTS fuzzPR user_text item, item))
  let sorted := scored.mergeSort (fun a b => decide (b.1 ≤ a.1))
  let t1 := match sorted with
    | [] => ((0 : ℚ), (none : Option Item))
    | x :: _ => (x.1, some x.2)
  let t2 := match sorted with
    | _ :: y :: _ => (y.1, some y.2)
    | _ => ((0 : ℚ), (none : Option Item))
  (t1, t2)

/-! ### Loader / cache `load_json` (main.py lines 177-232)

The module globals `KB`, `UI`, `MTIME` form the `CacheState`.  The file
system is modelled by `FS`: the result of `os.path.getmtime(DATA_PATH)`
(which can succeed, raise `FileNotFoundError`, or raise a different
`OSError` such as `PermissionError` — the code's `except` clause catches
only `FileNotFoundError`), and the combined result of
`open(...)` + `json.load(...)` (a document, or any exception from reading
or parsing). -/

inductive StatRes where
  | ok (mtime : ℚ) : StatRes
  | fileNotFound : StatRes
  | osError : StatRes

/-- The exceptions `load_json` can propagate. -/
inductive Err where
  | osError : Err
  | docError : Err
  | attributeError : Err
  | typeError : Err
deriving DecidableEq

structure FS where
  stat : StatRes
  doc : Except Unit Json

structure CacheState where
  KB : List Item
  UI : Json
  MTIME : ℚ

/-- `data.get("ui", \x7b\x7d) or \x7b\x7d`: requires `data` to be a dict
(`AttributeError` otherwise); a missing or falsy `ui` value yields the
empty dict. -/
def getUI (data : Json) : Except Err Json :=
  match data with
  | Json.obj kvs =>
    let v := (kvs.lookup "ui").getD (Json.obj [])
    Except.ok (if v.truthy then v else Json.obj [])
  | _ => Except.error Err.attributeError

/-- `for it in (data.get(key) or []): ...` — the sequence of iterated
values: a missing or falsy section iterates nothing; a JSON array iterates
its elements; a string iterates its one-character substrings; a dict
iterates its keys; a truthy number or `True` raises `TypeError`. -/
def getIterSection (data : Json) (key : String) : Except Err (List Json) :=
  match data with
  | Json.obj kvs =>
    let v := (kvs.lookup key).getD Json.null
    if v.truthy = false then Except.ok []
    else
      match v with
      | Json.arr xs => Except.ok xs
      | Json.str s => Except.ok (s.data.map (fun c => Json.str (String.mk [c])))
      | Json.obj fields => Except.ok (fields.map (fun kv => Json.str kv.1))
      | _ => Except.error Err.typeError
  | _ => Except.error Err.attributeError

/-- One iteration of the `items` loop of `load_json`: `it.get(...)` requires
a dict (`AttributeError` otherwise). -/
def mkItemEntry (it : Json) : Except Err Item :=
  match it with
  | Json.obj kvs =>
    Except.ok
      { id := (kvs.lookup "id").getD Json.null,
        parent_id := none,
        title := (kvs.lookup "title").getD (Json.str ""),
        topic := (kvs.lookup "topic").getD (Json.str ""),
        keywords := norm_list ((kvs.lookup "keywords").getD Json.null),
        text := (kvs.lookup "text").getD (Json.str ""),
        source := "items",
        image := none }
  | _ => Except.error Err.attributeError

/-- `split_into_chunks(desc)` on the dynamic `description` value: a falsy
value yields no chunks (the function returns `[]` for empty text), a
truthy non-string raises `AttributeError` at `text.replace`. -/
def splitChunksDyn (desc : Json) : Except Err (List String) :=
  if desc.truthy = false then Except.ok []
  else
    match desc with
    | Json.str s => Except.ok (split_into_chunks s)
    | _ => Except.error Err.attributeError

/-- One iteration of the `problems` loop of `load_json`: chunk the
description and derive one entry per chunk. -/
def mkProblemEntries (p : Json) : Except Err (List Item) :=
  match p with
  | Json.obj kvs => do
    let pid := (kvs.lookup "id").getD Json.null
    let title := (kvs.lookup "title").getD (Json.str "")
    let desc := (kvs.lookup "description").getD (Json.str "")
    let image := (kvs.lookup "image").getD Json.null
    let chunks ← splitChunksDyn desc
    chunks.enum.mapM (fun ic => do
      let kws ← (extract_keywords title (Json.str ic.2)).mapError
        (fun _ => Err.attributeError)
      pure ({ id := Json.str ("problem_" ++ pyStr pid ++ "_chunk_" ++ toString ic.1),
              parent_id := some pid,
              title := title,
              topic := Json.str "expert_article",
              keywords := kws,
              text := Json.str ic.2,
              source := "problems",
              image := some image } : Item))
  | _ => Except.error Err.attributeError

/-- The knowledge-base construction of `load_json`: the `items` list
followed by the chunked `problems` list (evaluated in that order, as in
the source). -/
def buildKB (data : Json) : Except Err (List Item) := do
  let items ← getIterSection data "items"
  let itemEntries ← items.mapM mkItemEntry
  let problems ← getIterSection data "problems"
  let problemEntries ← problems.mapM mkProblemEntries
  pure (itemEntries ++ problemEntries.flatten)

/-- `load_json` from main.py as a state transition.  The result is the
state of the globals after the call together with the exception the call
propagates, if any.  Mutation order matters: `UI` is assigned as soon as
the document parses and its top level is a dict, before the entry lists
are validated; `KB` and `MTIME` are assigned only after the whole build
succeeds. -/
def load_json (fs : FS) (st : CacheState) : CacheState × Option Err :=
  match fs.stat with
  | StatRes.fileNotFound => (⟨[], Json.obj [], 0⟩, none)
  | StatRes.osError => (st, some Err.osError)
  | StatRes.ok mtime =>
    if mtime = st.MTIME then (st, none)
    else
      match fs.doc with
      | Except.error _ => (st, some Err.docError)
      | Except.ok data =>
        match getUI data with
        | Except.error e => (st, some e)
        | Except.ok ui =>
          let st1 : CacheState := { st with UI := ui }
          match buildKB data with
          | Except.error e => (st1, some e)
          | Except.ok kb => (⟨kb, ui, mtime⟩, none)

/-! ### The `/chat` handler (main.py lines 256-294) -/

/-- `round(x, 2)` (Python rounds half to even). -/
def round2 (x : ℚ) : ℚ :=
  let y := x * 100
  let f : ℤ := ⌊y⌋
  let r : ℤ := if y - f < 1/2 then f else if 1/2 < y - f then f + 1
    else if f % 2 = 0 then f else f + 1
  (r : ℚ) / 100

/-- One element of the `sources` list of an accepted answer. -/
structure SourceRef where
  id : Json
  title : Json
  source : String
  score : ℚ
  parent_id : Json

/-- The JSON body returned by the `/chat` handler. -/
structure ChatResponse where
  answer : Json
  used_context : Bool
  sources : List SourceRef

def THRESHOLD : ℚ := 80
def MARGIN : ℚ := 4

/-- The fixed reply to an empty or whitespace-only message. -/
def EMPTY_PROMPT : String := "Zəhmət olmasa sualınızı yazın."

/-- The fixed clarification prompt. -/
def CLARIFY : String :=
  "Sualınızı dəqiq tutmadım. Zəhmət olmasa 1-2 detal əlavə edin:\n" ++
  "• Yaş neçədir?\n" ++
  "• Nə tetikləyir? (səs, işıq, qoxu, toxunuş, rutin pozulması)\n" ++
  "• Nə qədər tez-tez olur?\n" ++
  "Məs: “5 yaş, tozsoran səsində qulaqlarını tutub ağlayır”."

def empty_prompt_response : ChatResponse :=
  ⟨Json.str EMPTY_PROMPT, false, []⟩

def clarify_response : ChatResponse :=
  ⟨Json.str CLARIFY, false, []⟩

/-- The accepted-answer body: the entry's stored answer text verbatim,
`used_context = true`, and one provenance record
(`item1.get("parent_id")` is `None` for non-chunked entries). -/
def accept_response (it : Item) (s1 : ℚ) : ChatResponse :=
  ⟨it.text, true,
   [⟨it.id, it.title, it.source, round2 s1, it.parent_id.getD Json.null⟩]⟩

/-- The pure part of the `/chat` handler, after `load_json` has run:
normalise the message, short-circuit on emptiness, otherwise rank and
decide with the absolute threshold and the margin. -/
def answer (fuzzTS fuzzPR : Fuzz) (kb : List Item) (msg : String) : ChatResponse :=
  let user_text := pyLower (pyStrip msg)
  if user_text = "" then empty_prompt_response
  else
    let t := top2_match fuzzTS fuzzPR kb user_text
    match t.1.2 with
    | some it =>
      if THRESHOLD ≤ t.1.1 ∧ MARGIN ≤ t.1.1 - t.2.1 then accept_response it t.1.1
      else clarify_response
    | none => clarify_response

/-- The full `/chat` handler: run `load_json` first (its mutations happen
and its exception propagates before the message is even examined), then
answer from the new snapshot. -/
def chat (fuzzTS fuzzPR : Fuzz) (fs : FS) (st : CacheState) (msg : String) :
    CacheState × Except Err ChatResponse :=
  let r := load_json fs st
  match r.2 with
  | some e => (r.1, Except.error e)
  | none => (r.1, Except.ok (answer fuzzTS fuzzPR r.1.KB msg))

/-! ### Lemmas about the string primitives -/

theorem char_toNat_ofNat {n : ℕ} (h : n.isValidChar) : (Char.ofNat n).toNat = n := by
  rw [Char.ofNat, dif_pos h]
  rfl

theorem toNat_toLower (c : Char) :
    (Char.toLower c).toNat = if 65 ≤ c.toNat ∧ c.toNat ≤ 90 then c.toNat + 32 else c.toNat := by
  unfold Char.toLower
  by_cases h : c.toNat ≥ 65 ∧ c.toNat ≤ 90
  · rw [if_pos h, if_pos h, char_toNat_ofNat (Or.inl (by omega))]
  · rw [if_neg h, if_neg h]

theorem toLower_toLower (c : Char) : Char.toLower (Char.toLower c) = Char.toLower c := by
  unfold Char.toLower
  by_cases h : c.toNat ≥ 65 ∧ c.toNat ≤ 90
  · rw [if_pos h]
    rw [char_toNat_ofNat (Or.inl (by omega))]
    rw [if_neg (by omega)]
  · rw [if_neg h, if_neg h]

theorem isPySpace_toLower (c : Char) : isPySpace (Char.toLower c) = isPySpace c := by
  simp only [isPySpace, toNat_toLower, decide_eq_decide]
  by_cases h : 65 ≤ c.toNat ∧ c.toNat ≤ 90
  · rw [if_pos h]
    omega
  · rw [if_neg h]

theorem dropWhile_eq_self_of_prefix {p : Char → Bool} {b a : List Char}
    (hba : b <+: a) (ha : List.dropWhile p a = a) : List.dropWhile p b = b := by
  cases b with
  | nil => rfl
  | cons x b' =>
    obtain ⟨t, ht⟩ := hba
    subst ht
    rw [List.cons_append, List.dropWhile_cons] at ha
    rw [List.dropWhile_cons]
    split at ha
    · exfalso
      have hle := (List.dropWhile_suffix (l := b' ++ t) p).length_le
      rw [ha] at hle
      simp at hle
    · split
      · simp_all
      · rfl

theorem rev_dropWhile_rev_prefix (p : Char → Bool) (m : List Char) :
    (m.reverse.dropWhile p).reverse <+: m := by
  apply List.reverse_suffix.mp
  rw [List.reverse_reverse]
  exact List.dropWhile_suffix p

theorem stripData_stripData (l : List Char) : stripData (stripData l) = stripData l := by
  unfold stripData
  set a := l.dropWhile isPySpace with ha
  set rb := a.reverse.dropWhile isPySpace with hrb
  have h1 : List.dropWhile isPySpace rb.reverse = rb.reverse := by
    apply dropWhile_eq_self_of_prefix (a := a)
    · rw [hrb]
      exact rev_dropWhile_rev_prefix isPySpace a
    · rw [ha]
      exact List.dropWhile_idempotent _ _
  rw [h1, List.reverse_reverse, hrb, List.dropWhile_idempotent]

theorem stripData_within (l : List Char) : stripData l <:+: l := by
  unfold stripData
  have h1 : l.dropWhile isPySpace <:+ l := List.dropWhile_suffix isPySpace
  have h2 := rev_dropWhile_rev_prefix isPySpace (l.dropWhile isPySpace)
  exact h2.isInfix.trans h1.isInfix

theorem stripData_map_toLower (l : List Char) :
    stripData (l.map Char.toLower) = (stripData l).map Char.toLower := by
  have hp : (isPySpace ∘ Char.toLower) = isPySpace := funext isPySpace_toLower
  unfold stripData
  simp only [List.dropWhile_map, hp, ← List.map_reverse]

theorem pyLower_pyLower (s : String) : pyLower (pyLower s) = pyLower s := by
  apply String.ext
  simp only [pyLower, List.map_map]
  exact List.map_congr_left (fun c _ => toLower_toLower c)

theorem pyStrip_pyStrip (s : String) : pyStrip (pyStrip s) = pyStrip s := by
  apply String.ext
  simp only [pyStrip]
  exact stripData_stripData s.data

theorem pyStrip_pyLower (s : String) : pyStrip (pyLower s) = pyLower (pyStrip s) := by
  apply String.ext
  simp only [pyStrip, pyLower]
  exact stripData_map_toLower s.data

theorem norm_fix (s : String) :
    pyLower (pyStrip (pyLower (pyStrip s))) = pyLower (pyStrip s) := by
  rw [pyStrip_pyLower, pyLower_pyLower, pyStrip_pyStrip]

theorem pyLower_eq_empty {s : String} : pyLower s = "" ↔ s = "" := by
  constructor
  · intro h
    have : s.data.map Char.toLower = [] := congrArg String.data h
    rw [List.map_eq_nil_iff] at this
    exact String.ext this
  · intro h
    rw [h]
    rfl

/-! ### Lemmas about `norm_list` -/

theorem if_empty_some {s t : String}
    (h : (if s = "" then none else some s) = some t) : s = t ∧ t ≠ "" := by
  split at h
  · simp at h
  · next hne =>
    rw [Option.some.injEq] at h
    exact ⟨h, h ▸ hne⟩

theorem if_empty_mem {s t : String}
    (h : t ∈ (if s = "" then ([] : List String) else [s])) : s = t ∧ t ≠ "" := by
  split at h
  · simp at h
  · next hne =>
    rw [List.mem_singleton] at h
    exact ⟨h.symm, h ▸ hne⟩

theorem normElem_str (t : String) :
    normElem (Json.str t) =
      if pyLower (pyStrip t) = "" then none else some (pyLower (pyStrip t)) := rfl

theorem normElem_eq_some {v : Json} {t : String} (h : normElem v = some t) :
    pyLower (pyStrip t) = t ∧ t ≠ "" := by
  cases v with
  | null => exact absurd h (by simp [normElem])
  | bool b =>
    obtain ⟨h1, h2⟩ := if_empty_some h
    exact ⟨h1 ▸ norm_fix _, h2⟩
  | int n =>
    obtain ⟨h1, h2⟩ := if_empty_some h
    exact ⟨h1 ▸ norm_fix _, h2⟩
  | str s =>
    obtain ⟨h1, h2⟩ := if_empty_some h
    exact ⟨h1 ▸ norm_fix _, h2⟩
  | arr xs =>
    obtain ⟨h1, h2⟩ := if_empty_some h
    exact ⟨h1 ▸ norm_fix _, h2⟩
  | obj kvs =>
    obtain ⟨h1, h2⟩ := if_empty_some h
    exact ⟨h1 ▸ norm_fix _, h2⟩

/-- Every element of `norm_list x` is a fixed point of strip-then-lower and
is non-blank, provided `x` is not a truthy whitespace-only string. -/
theorem norm_list_out {x : Json} (h : ∀ s, x = Json.str s → pyStrip s = "" → s = "") :
    ∀ t ∈ norm_list x, pyLower (pyStrip t) = t ∧ t ≠ "" := by
  intro t ht
  unfold norm_list at ht
  by_cases htr : x.truthy = false
  · rw [if_pos htr] at ht
    simp at ht
  · rw [if_neg htr] at ht
    cases x with
    | null => simp [Json.truthy] at htr
    | bool b => exact ⟨(if_empty_mem ht).1 ▸ norm_fix _, (if_empty_mem ht).2⟩
    | int n => exact ⟨(if_empty_mem ht).1 ▸ norm_fix _, (if_empty_mem ht).2⟩
    | obj kvs => exact ⟨(if_empty_mem ht).1 ▸ norm_fix _, (if_empty_mem ht).2⟩
    | str s =>
      rw [List.mem_singleton] at ht
      subst ht
      have hs : pyStrip s ≠ "" := by
        intro hstrip
        have hs0 : s = "" := h s rfl hstrip
        rw [hs0] at htr
        simp [Json.truthy] at htr
      exact ⟨norm_fix s, fun hc => hs (pyLower_eq_empty.mp hc)⟩
    | arr xs =>
      rw [List.mem_filterMap] at ht
      obtain ⟨v, _, hv⟩ := ht
      exact normElem_eq_some hv

theorem filterMap_normElem_id {l : List String}
    (h : ∀ a ∈ l, normElem (Json.str a) = some a) :
    (l.map Json.str).filterMap normElem = l := by
  induction l with
  | nil => rfl
  | cons a l ih =>
    simp only [List.map_cons, List.filterMap_cons, h a (by simp)]
    rw [ih (fun b hb => h b (by simp [hb]))]

/-! ### Claim C4 -/

/-- C4 (corrected): for every input value that is not a truthy
whitespace-only string, the output of `norm_list` contains no blank
strings, and `norm_list` applied to its own output (re-presented as a
Python list of strings) returns that output unchanged. -/
theorem C4_norm_list_blankfree_idem (x : Json)
    (h : ∀ s, x = Json.str s → pyStrip s = "" → s = "") :
    (∀ t ∈ norm_list x, t ≠ "") ∧
      norm_list (Json.arr ((norm_list x).map Json.str)) = norm_list x := by
  refine ⟨fun t ht => (norm_list_out h t ht).2, ?_⟩
  rcases hout : norm_list x with _ | ⟨a, out'⟩
  · rfl
  · have hmem : ∀ b ∈ a :: out', normElem (Json.str b) = some b := by
      intro b hb
      have hspec := norm_list_out h b (hout ▸ hb)
      rw [normElem_str, hspec.1, if_neg hspec.2]
    have htru : (Json.arr ((a :: out').map Json.str)).truthy = true := by
      simp [Json.truthy]
    unfold norm_list
    rw [htru]
    simp only [Bool.true_eq_false, if_false]
    exact filterMap_normElem_id hmem

/-- C4 counterexample: a non-empty whitespace-only string is truthy, so
`norm_list` returns the one-element list containing the blank string, and
re-applying `norm_list` to that output drops the blank, so the function is
neither blank-free nor idempotent there. -/
theorem C4_cex_whitespace_string :
    norm_list (Json.str " ") = [""] ∧
      norm_list (Json.arr ((norm_list (Json.str " ")).map Json.str)) = [] ∧
      ([] : List String) ≠ [""] := by
  refine ⟨rfl, rfl, by simp⟩

/-- C4 witness: a concrete heterogeneous list input satisfying the
hypothesis, evaluated. -/
theorem C4_witness :
    (∀ t ∈ norm_list (Json.arr [Json.str " A ", Json.null, Json.int 5]), t ≠ "") ∧
      norm_list (Json.arr ((norm_list (Json.arr [Json.str " A ", Json.null, Json.int 5])).map
        Json.str)) = norm_list (Json.arr [Json.str " A ", Json.null, Json.int 5]) :=
  C4_norm_list_blankfree_idem _ (fun s hs => by cases hs)

/-! ### Lemmas about the chunker -/

/-- `splitNL2` always returns at least one part, the first part is a prefix
of the input, and every part is an infix of the input. -/
theorem splitNL2_spec (l : List Char) :
    (∃ p ps, splitNL2 l = p :: ps ∧ p <+: l) ∧ ∀ q ∈ splitNL2 l, q <:+: l := by
  induction l using splitNL2.induct with
  | case1 =>
    refine ⟨⟨[], [], by rw [splitNL2], List.nil_prefix⟩, ?_⟩
    intro q hq
    have : q = ([] : List Char) := by simpa [splitNL2] using hq
    simp [this]
  | case2 c =>
    refine ⟨⟨[c], [], by rw [splitNL2], List.prefix_refl _⟩, ?_⟩
    intro q hq
    have : q = [c] := by simpa [splitNL2] using hq
    simp [this]
  | case3 c d rest hcd ih =>
    have heq : splitNL2 (c :: d :: rest) =
        [] :: splitNL2 ((d :: rest).dropWhile (fun e => e == '\n')) := by
      rw [splitNL2, if_pos hcd]
    refine ⟨⟨[], _, heq, List.nil_prefix⟩, ?_⟩
    intro q hq
    rw [heq] at hq
    rcases List.mem_cons.mp hq with h | h
    · simp [h]
    · have h1 : q <:+: (d :: rest).dropWhile (fun e => e == '\n') := ih.2 q h
      have h2 : (d :: rest).dropWhile (fun e => e == '\n') <:+ d :: rest :=
        List.dropWhile_suffix _
      have h3 : (d :: rest) <:+ c :: d :: rest := List.suffix_cons c _
      exact (h1.trans h2.isInfix).trans h3.isInfix
  | case4 c d rest hne hnil ih =>
    obtain ⟨p, ps, hps, _⟩ := ih.1
    rw [hnil] at hps
    exact absurd hps (by simp)
  | case5 c d rest hne p ps hpps ih =>
    have heq : splitNL2 (c :: d :: rest) = (c :: p) :: ps := by
      rw [splitNL2, if_neg hne, hpps]
    obtain ⟨p', ps', hps', hpre⟩ := ih.1
    rw [hpps] at hps'
    obtain ⟨hp, _⟩ := List.cons.injEq .. ▸ hps'
    refine ⟨⟨c :: p, ps, heq, ?_⟩, ?_⟩
    · exact (List.cons_prefix_cons).mpr ⟨rfl, hp ▸ hpre⟩
    · intro q hq
      rw [heq] at hq
      rcases List.mem_cons.mp hq with h | h
      · subst h
        exact ((List.cons_prefix_cons).mpr ⟨rfl, hp ▸ hpre⟩).isInfix
      · have h1 : q <:+: d :: rest := ih.2 q (by rw [hpps]; exact List.mem_cons_of_mem _ h)
        exact h1.trans (List.suffix_cons c _).isInfix

/-! ### Claim C5 -/

/-- C5 (confirmed): the empty text chunks to the empty list; any non-empty
text chunks to at least one passage; every passage is a contiguous infix of
the normalised (CRLF-normalised, stripped) text; and every passage either
survived the 80-character filter or is the whole-normalised-text
fallback. -/
theorem C5_chunker (txt : String) :
    split_into_chunks "" = [] ∧
      (txt ≠ "" →
        split_into_chunks txt ≠ [] ∧
          ∀ c ∈ split_into_chunks txt,
            c.data <:+: (normalizeText txt).data ∧
              (80 ≤ c.data.length ∨ split_into_chunks txt = [normalizeText txt])) := by
  refine ⟨rfl, fun h => ?_⟩
  have hunf : split_into_chunks txt =
      if (((splitNL2 (normalizeText txt).data).map stripData).filter
          (fun p => 80 ≤ p.length)).isEmpty
      then [normalizeText txt]
      else (((splitNL2 (normalizeText txt).data).map stripData).filter
          (fun p => 80 ≤ p.length)).map (fun p => String.mk p) := by
    simp only [split_into_chunks, if_neg h]
  by_cases hc : (((splitNL2 (normalizeText txt).data).map stripData).filter
      (fun p => 80 ≤ p.length)).isEmpty
  · rw [hunf, if_pos hc]
    refine ⟨by simp, ?_⟩
    intro c hcmem
    rw [List.mem_singleton] at hcmem
    subst hcmem
    exact ⟨List.infix_refl _, Or.inr rfl⟩
  · rw [hunf, if_neg hc]
    refine ⟨?_, ?_⟩
    · intro hnil
      rw [List.map_eq_nil_iff] at hnil
      rw [hnil] at hc
      simp at hc
    · intro c hcmem
      rw [List.mem_map] at hcmem
      obtain ⟨p, hp, hpc⟩ := hcmem
      rw [List.mem_filter] at hp
      obtain ⟨hpmem, hplen⟩ := hp
      rw [List.mem_map] at hpmem
      obtain ⟨q, hq, hqp⟩ := hpmem
      have hdata : c.data = p := by rw [← hpc]
      constructor
      · rw [hdata, ← hqp]
        exact (stripData_within q).trans ((splitNL2_spec _).2 q hq)
      · left
        rw [hdata]
        simpa using hplen

/-- C5 witness: the non-emptiness hypothesis discharged on a concrete
two-paragraph text. -/
theorem C5_witness :
    split_into_chunks "ab\n\ncd" ≠ [] ∧
      ∀ c ∈ split_into_chunks "ab\n\ncd",
        c.data <:+: (normalizeText "ab\n\ncd").data ∧
          (80 ≤ c.data.length ∨ split_into_chunks "ab\n\ncd" = [normalizeText "ab\n\ncd"]) :=
  (C5_chunker "ab\n\ncd").2 (by decide)

/-! ### Claim C2 -/

/-- C2 (confirmed): for any entry with a non-empty composite query text,
the score `top2_match` assigns (via `entry_score`) is exactly
`max(token_set_ratio, partial_substring_ratio) + min(overlap * 4, 16)`
minus a flat `5` exactly when the overlap is zero (the penalty applied
after the bonus); the bonus is monotone in the overlap and saturates at
`16` for overlap at least `4`.  The second conjunct ties `entry_score` to
the ranking itself. -/
theorem C2_scoring_formula (fuzzTS fuzzPR : Fuzz) (u : String) (item : Item)
    (h : build_query_text item ≠ "") :
    (entry_score fuzzTS fuzzPR u item =
        max (fuzzTS u (build_query_text item)) (fuzzPR u (build_query_text item))
          + min ((keyword_overlap u (item_keywords item) : ℚ) * 4) 16
          - (if keyword_overlap u (item_keywords item) = 0 then 5 else 0))
      ∧ top2_match fuzzTS fuzzPR [item] u =
          ((entry_score fuzzTS fuzzPR u item, some item), (0, none))
      ∧ (∀ o₁ o₂ : ℕ, o₁ ≤ o₂ → min ((o₁ : ℚ) * 4) 16 ≤ min ((o₂ : ℚ) * 4) 16)
      ∧ (∀ o : ℕ, 4 ≤ o → min ((o : ℚ) * 4) 16 = 16) := by
  refine ⟨?_, ?_, ?_, ?_⟩
  · simp only [entry_score]
    split
    · rfl
    · rw [sub_zero]
  · simp only [top2_match, List.filterMap_cons, List.filterMap_nil, if_neg h,
      List.mergeSort_singleton]
  · intro o₁ o₂ h12
    have hc : (o₁ : ℚ) ≤ (o₂ : ℚ) := by exact_mod_cast h12
    exact min_le_min (by nlinarith) le_rfl
  · intro o ho
    have hc : (4 : ℚ) ≤ (o : ℚ) := by exact_mod_cast ho
    exact min_eq_right (by nlinarith)

/-- C2 witness: the concrete scenario entry of the spec, with constant
ratio functions. -/
theorem C2_scoring_formula_witness :
    entry_score (fun _ _ => 90) (fun _ _ => 80) "səs çox pis"
        ⟨Json.str "i1", none, Json.str "Qulaq", Json.str "t", ["səs"], Json.str "Cavab A",
          "items", none⟩ =
      max ((fun _ _ => (90 : ℚ)) "səs çox pis" (build_query_text
            ⟨Json.str "i1", none, Json.str "Qulaq", Json.str "t", ["səs"], Json.str "Cavab A",
              "items", none⟩))
          ((fun _ _ => (80 : ℚ)) "səs çox pis" (build_query_text
            ⟨Json.str "i1", none, Json.str "Qulaq", Json.str "t", ["səs"], Json.str "Cavab A",
              "items", none⟩))
        + min ((keyword_overlap "səs çox pis" (item_keywords
            ⟨Json.str "i1", none, Json.str "Qulaq", Json.str "t", ["səs"], Json.str "Cavab A",
              "items", none⟩) : ℚ) * 4) 16
        - (if keyword_overlap "səs çox pis" (item_keywords
            ⟨Json.str "i1", none, Json.str "Qulaq", Json.str "t", ["səs"], Json.str "Cavab A",
              "items", none⟩) = 0 then 5 else 0) :=
  (C2_scoring_formula (fun _ _ => 90) (fun _ _ => 80) "səs çox pis" _ (by decide)).1

/-! ### Claim C1 -/

/-- C1 (confirmed): with a non-empty normalised message, the chat decision
accepts the best-ranked entry (returning its stored text with
`used_context = true`) exactly when a best entry exists, its score reaches
the absolute threshold 80, and its lead over the second score reaches the
margin 4; in every other case the fixed clarification prompt is returned
(`used_context = false`, no sources), and the two response shapes are
never equal. -/
theorem C1_decision_policy (fuzzTS fuzzPR : Fuzz) (kb : List Item) (msg : String)
    (t : (ℚ × Option Item) × (ℚ × Option Item))
    (h : pyLower (pyStrip msg) ≠ "")
    (ht : top2_match fuzzTS fuzzPR kb (pyLower (pyStrip msg)) = t) :
    (∀ it, t.1.2 = some it → THRESHOLD ≤ t.1.1 → MARGIN ≤ t.1.1 - t.2.1 →
        answer fuzzTS fuzzPR kb msg = accept_response it t.1.1)
      ∧ ((t.1.2 = none ∨ t.1.1 < THRESHOLD ∨ t.1.1 - t.2.1 < MARGIN) →
          answer fuzzTS fuzzPR kb msg = clarify_response)
      ∧ (∀ it s, accept_response it s ≠ clarify_response) := by
  have hans : answer fuzzTS fuzzPR kb msg =
      match t.1.2 with
      | some it =>
        if THRESHOLD ≤ t.1.1 ∧ MARGIN ≤ t.1.1 - t.2.1 then accept_response it t.1.1
        else clarify_response
      | none => clarify_response := by
    simp only [answer, if_neg h, ht]
  refine ⟨?_, ?_, ?_⟩
  · intro it hit h1 h2
    rw [hans, hit]
    exact if_pos ⟨h1, h2⟩
  · intro hor
    rw [hans]
    cases hit : t.1.2 with
    | none => rfl
    | some it =>
      rcases hor with hor | hor | hor
      · rw [hit] at hor
        exact absurd hor (by simp)
      · exact if_neg (fun hc => absurd hc.1 (not_le.mpr hor))
      · exact if_neg (fun hc => absurd hc.2 (not_le.mpr hor))
  · intro it s hc
    have : (accept_response it s).used_context = clarify_response.used_context := by rw [hc]
    simp [accept_response, clarify_response] at this

/-- C1 witness: the empty knowledge base ranks nothing, so the clarify
branch fires. -/
theorem C1_decision_policy_witness :
    answer (fun _ _ => 0) (fun _ _ => 0) [] "salam" = clarify_response :=
  (C1_decision_policy (fun _ _ => 0) (fun _ _ => 0) [] "salam" ((0, none), (0, none))
      (by decide)
      (by simp only [top2_match, List.filterMap_nil, List.mergeSort_nil])).2.1
    (Or.inl rfl)

/-! ### Claim C6 -/

/-- From either returned slot of `top2_match` one recovers a member of the
scored list. -/
theorem top_slots_mem {s : List (ℚ × Item)} {it : Item}
    (h : (match s with
          | [] => ((0 : ℚ), (none : Option Item))
          | x :: _ => (x.1, some x.2)).2 = some it
       ∨ (match s with
          | _ :: y :: _ => (y.1, some y.2)
          | _ => ((0 : ℚ), (none : Option Item))).2 = some it) :
    ∃ x ∈ s, x.2 = it := by
  rcases s with _ | ⟨x, _ | ⟨y, rest⟩⟩
  · rcases h with h | h <;> simp at h
  · rcases h with h | h
    · rw [Option.some.injEq] at h
      exact ⟨x, by simp, h⟩
    · simp at h
  · rcases h with h | h
    · rw [Option.some.injEq] at h
      exact ⟨x, by simp, h⟩
    · rw [Option.some.injEq] at h
      exact ⟨y, by simp, h⟩

/-- C6 (corrected): every entry returned as best or second-best by the
ranking has a non-empty composite query text, i.e. entries with an empty
composite query text are excluded from the ranking entirely, for every
knowledge base (in particular for every successfully reloaded one).  (The
non-empty-answer-text half of the original claim is refuted by
`C6_cex_empty_text_entry`.) -/
theorem C6_empty_query_excluded (fuzzTS fuzzPR : Fuzz) (kb : List Item) (u : String)
    (it : Item)
    (h : (top2_match fuzzTS fuzzPR kb u).1.2 = some it
       ∨ (top2_match fuzzTS fuzzPR kb u).2.2 = some it) :
    build_query_text it ≠ "" := by
  simp only [top2_match] at h
  obtain ⟨x, hx, hxit⟩ := top_slots_mem h
  rw [List.mem_mergeSort, List.mem_filterMap] at hx
  obtain ⟨item, _, hsome⟩ := hx
  split at hsome
  · exact absurd hsome (by simp)
  · next hq =>
    rw [Option.some.injEq] at hsome
    rw [← hxit, ← hsome]
    exact hq

/-- C6 witness: a one-entry knowledge base whose entry has a non-empty
query text is returned as best. -/
theorem C6_empty_query_excluded_witness :
    build_query_text
      ⟨Json.str "i1", none, Json.str "Qulaq", Json.str "t", ["səs"], Json.str "Cavab A",
        "items", none⟩ ≠ "" :=
  C6_empty_query_excluded (fun _ _ => 0) (fun _ _ => 0)
    [⟨Json.str "i1", none, Json.str "Qulaq", Json.str "t", ["səs"], Json.str "Cavab A",
      "items", none⟩] "səs"
    _
    (Or.inl (by
      simp only [top2_match, List.filterMap_cons, List.filterMap_nil]
      rw [if_neg (by decide)]
      simp [List.mergeSort_singleton]))

/-- C6 counterexample: a successful reload (no error) of a well-formed
document whose single item has no `text` key produces an entry whose
answer text is the empty string, refuting the non-empty-answer-text
invariant. -/
theorem C6_cex_empty_text_entry :
    load_json ⟨StatRes.ok 1, Except.ok (Json.obj [("items", Json.arr [Json.obj []])])⟩
        ⟨[], Json.obj [], 0⟩ =
      (⟨[⟨Json.null, none, Json.str "", Json.str "", [], Json.str "", "items", none⟩],
        Json.obj [], 1⟩, none)
      ∧ pyStr (Json.str "") = "" := ⟨rfl, rfl⟩

/-! ### Claim C3 -/

/-- C3 (corrected): whenever `load_json` propagates an error, the entry
list and the recorded modification time are left exactly as they were,
and when the document itself fails to read or parse (the `json.load`
step), the entire state — `UI` included — is unchanged.  (The original
claim also protected the UI mapping against wrong-shaped sections; that
part is refuted by `C3_cex_partial_ui_replace`.) -/
theorem C3_reload_error_atomicity (fs : FS) (st st' : CacheState) (e : Err)
    (h : load_json fs st = (st', some e)) :
    st'.KB = st.KB ∧ st'.MTIME = st.MTIME ∧
      (∀ u : Unit, fs.doc = Except.error u → st' = st) := by
  unfold load_json at h
  split at h
  · injection h with h1 h2
    exact Option.noConfusion h2
  · next hstat =>
    injection h with h1 h2
    exact ⟨by rw [← h1], by rw [← h1], fun u _ => by rw [← h1]⟩
  · next mtime hstat =>
    split at h
    · injection h with h1 h2
      exact Option.noConfusion h2
    · split at h
      · injection h with h1 h2
        exact ⟨by rw [← h1], by rw [← h1], fun u _ => by rw [← h1]⟩
      · next data hdoc =>
        split at h
        · injection h with h1 h2
          exact ⟨by rw [← h1], by rw [← h1], fun u hu => by rw [hdoc] at hu; cases hu⟩
        · split at h
          · injection h with h1 h2
            exact ⟨by rw [← h1], by rw [← h1], fun u hu => by rw [hdoc] at hu; cases hu⟩
          · injection h with h1 h2
            exact Option.noConfusion h2

/-- C3 witness: a parse failure with a changed mtime leaves the whole
state intact and surfaces the error. -/
theorem C3_reload_error_atomicity_witness :
    (⟨[], Json.obj [], 0⟩ : CacheState).KB = (⟨[], Json.obj [], 0⟩ : CacheState).KB
      ∧ (⟨[], Json.obj [], 0⟩ : CacheState).MTIME = (⟨[], Json.obj [], 0⟩ : CacheState).MTIME
      ∧ (∀ u : Unit,
          (⟨StatRes.ok 1, Except.error ()⟩ : FS).doc = Except.error u →
            (⟨[], Json.obj [], 0⟩ : CacheState) = (⟨[], Json.obj [], 0⟩ : CacheState)) :=
  C3_reload_error_atomicity ⟨StatRes.ok 1, Except.error ()⟩ ⟨[], Json.obj [], 0⟩
    ⟨[], Json.obj [], 0⟩ Err.docError rfl

/-- C3 counterexample: a document that parses as a dict but whose `items`
section is a truthy number raises only after the UI mapping has already
been replaced — the published state is partially updated, so the reload is
not atomic for the UI component. -/
theorem C3_cex_partial_ui_replace :
    load_json
        ⟨StatRes.ok 1,
         Except.ok (Json.obj
           [("ui", Json.obj [("botName", Json.str "X")]), ("items", Json.int 1)])⟩
        ⟨[], Json.obj [], 0⟩ =
      (⟨[], Json.obj [("botName", Json.str "X")], 0⟩, some Err.typeError)
      ∧ Json.obj [("botName", Json.str "X")] ≠ (⟨[], Json.obj [], 0⟩ : CacheState).UI :=
  ⟨rfl, by simp⟩

/-! ### Claim C7 -/

/-- C7 (corrected): for an empty or whitespace-only message the handler
returns the fixed type-a-question prompt with `used_context = false` and
no sources, and never scores — but only after running `load_json`: the
resulting state is exactly the post-reload state, and a reload error still
propagates.  (The no-reload half of the original claim is refuted by
`C7_cex_reload_on_empty_message`.) -/
theorem C7_empty_message (fuzzTS fuzzPR : Fuzz) (fs : FS) (st : CacheState) (msg : String)
    (h : pyLower (pyStrip msg) = "") :
    chat fuzzTS fuzzPR fs st msg =
      ((load_json fs st).1,
       match (load_json fs st).2 with
       | some e => Except.error e
       | none => Except.ok empty_prompt_response) := by
  simp only [chat]
  cases he : (load_json fs st).2 with
  | some e => rfl
  | none => simp only [answer, if_pos h]

/-- C7 witness: a whitespace-only message against a missing data file. -/
theorem C7_empty_message_witness :
    chat (fun _ _ => 0) (fun _ _ => 0) ⟨StatRes.fileNotFound, Except.error ()⟩
        ⟨[], Json.obj [], 7⟩ " " =
      (⟨[], Json.obj [], 0⟩, Except.ok empty_prompt_response) :=
  (C7_empty_message (fun _ _ => 0) (fun _ _ => 0) ⟨StatRes.fileNotFound, Except.error ()⟩
    ⟨[], Json.obj [], 7⟩ " " (by decide)).trans rfl

/-- C7 counterexample: on an empty message the handler still reloads first
— here the reload resets a previously non-empty knowledge base, so the
knowledge base is very much touched. -/
theorem C7_cex_reload_on_empty_message :
    chat (fun _ _ => 0) (fun _ _ => 0) ⟨StatRes.fileNotFound, Except.error ()⟩
        ⟨[⟨Json.null, none, Json.str "", Json.str "", [], Json.str "x", "items", none⟩],
          Json.obj [], 7⟩ "" =
      (⟨[], Json.obj [], 0⟩, Except.ok empty_prompt_response)
      ∧ (⟨[], Json.obj [], 0⟩ : CacheState).KB ≠
          [⟨Json.null, none, Json.str "", Json.str "", [], Json.str "x", "items", none⟩] :=
  ⟨rfl, by simp⟩

/-! ### Claim C8 -/

/-- C8 (corrected): a `FileNotFoundError` from the stat step is caught and
resets the knowledge base, UI mapping and timestamp (and on the resulting
empty knowledge base every non-empty query gets the clarification
response); but any other stat failure — e.g. a `PermissionError` for an
unreadable path — is not caught by the `except FileNotFoundError` clause
and propagates with the state unchanged (refuting "never raises", see
`C8_cex_oserror_propagates`). -/
theorem C8_stat_failure (fs : FS) (st : CacheState) :
    (fs.stat = StatRes.fileNotFound → load_json fs st = (⟨[], Json.obj [], 0⟩, none))
      ∧ (fs.stat = StatRes.osError → load_json fs st = (st, some Err.osError))
      ∧ (∀ (fuzzTS fuzzPR : Fuzz) (msg : String), pyLower (pyStrip msg) ≠ "" →
          answer fuzzTS fuzzPR [] msg = clarify_response) := by
  refine ⟨fun h => ?_, fun h => ?_, fun fTS fPR msg h => ?_⟩
  · unfold load_json
    rw [h]
  · unfold load_json
    rw [h]
  · simp only [answer, if_neg h, top2_match, List.filterMap_nil, List.mergeSort_nil]

/-- C8 witness: both handled stat outcomes and the subsequent-query
behaviour, on concrete inputs. -/
theorem C8_stat_failure_witness :
    load_json ⟨StatRes.fileNotFound, Except.error ()⟩ ⟨[], Json.obj [], 3⟩ =
        (⟨[], Json.obj [], 0⟩, none)
      ∧ load_json ⟨StatRes.osError, Except.ok Json.null⟩ ⟨[], Json.obj [], 3⟩ =
          (⟨[], Json.obj [], 3⟩, some Err.osError)
      ∧ answer (fun _ _ => 0) (fun _ _ => 0) [] "salam necəsən" = clarify_response :=
  ⟨(C8_stat_failure ⟨StatRes.fileNotFound, Except.error ()⟩ ⟨[], Json.obj [], 3⟩).1 rfl,
   (C8_stat_failure ⟨StatRes.osError, Except.ok Json.null⟩ ⟨[], Json.obj [], 3⟩).2.1 rfl,
   (C8_stat_failure ⟨StatRes.osError, Except.ok Json.null⟩ ⟨[], Json.obj [], 3⟩).2.2
     (fun _ _ => 0) (fun _ _ => 0) "salam necəsən" (by decide)⟩

/-- C8 counterexample: an `OSError` other than `FileNotFoundError` at the
stat step propagates to the caller and performs no reset. -/
theorem C8_cex_oserror_propagates :
    load_json ⟨StatRes.osError, Except.ok Json.null⟩ ⟨[], Json.obj [], 3⟩ =
        (⟨[], Json.obj [], 3⟩, some Err.osError)
      ∧ (some Err.osError ≠ (none : Option Err))
      ∧ (⟨[], Json.obj [], 3⟩ : CacheState).MTIME ≠ (0 : ℚ) :=
  ⟨rfl, by simp, by norm_num⟩

/-! ### Claim C9 -/

/-- C9 (confirmed): when the stat result equals the recorded timestamp,
`load_json` returns immediately with the state unchanged and no error —
for an arbitrary document component, so the file content is never read or
parsed in this branch. -/
theorem C9_reload_cached (fs : FS) (st : CacheState)
    (h : fs.stat = StatRes.ok st.MTIME) :
    load_json fs st = (st, none) := by
  unfold load_json
  rw [h]
  exact if_pos rfl

/-- C9 witness: a cached reload against an unreadable/unparseable document
still succeeds without touching it. -/
theorem C9_reload_cached_witness :
    load_json ⟨StatRes.ok 5, Except.error ()⟩ ⟨[], Json.obj [], 5⟩ =
      (⟨[], Json.obj [], 5⟩, none) :=
  C9_reload_cached ⟨StatRes.ok 5, Except.error ()⟩ ⟨[], Json.obj [], 5⟩ rfl

/-! ### Claim C10 -/

/-- C10 (confirmed): the handler's result factors through
`strip`-then-`lower` of the message: two messages with the same normalised
form — in particular variants differing only in ASCII letter case or in
leading/trailing whitespace — produce identical responses and identical
resulting states, for every snapshot, file system and pair of ratio
functions. -/
theorem C10_message_normalisation (fuzzTS fuzzPR : Fuzz) (fs : FS) (st : CacheState)
    (m₁ m₂ : String) (h : pyLower (pyStrip m₁) = pyLower (pyStrip m₂)) :
    chat fuzzTS fuzzPR fs st m₁ = chat fuzzTS fuzzPR fs st m₂ := by
  have hans : ∀ kb, answer fuzzTS fuzzPR kb m₁ = answer fuzzTS fuzzPR kb m₂ := by
    intro kb
    simp only [answer, h]
  simp only [chat]
  cases he : (load_json fs st).2 with
  | some e => rfl
  | none => rw [hans]

/-- C10 witness: a case- and whitespace-variant pair of messages. -/
theorem C10_message_normalisation_witness :
    chat (fun _ _ => 0) (fun _ _ => 0) ⟨StatRes.fileNotFound, Except.error ()⟩
        ⟨[], Json.obj [], 0⟩ " Salam " =
      chat (fun _ _ => 0) (fun _ _ => 0) ⟨StatRes.fileNotFound, Except.error ()⟩
        ⟨[], Json.obj [], 0⟩ "salam" :=
  C10_message_normalisation (fun _ _ => 0) (fun _ _ => 0)
    ⟨StatRes.fileNotFound, Except.error ()⟩ ⟨[], Json.obj [], 0⟩ " Salam " "salam" (by decide)

end Chatbot
